import Mathlib

/-!
Verification development for the circuit-breaker and DynamoDB-lock components
of the aws-lambda-powertools project. The Python source is shallowly embedded:
pure fragments become Lean functions, the stateful client operations become
explicit state-passing functions, and wall-clock readings become explicit
integer parameters (milliseconds for the breaker, monotonic units for the
lock client).
-/

namespace CircuitBreaker

/-- Python exception classes relevant to the breaker's failure matching.
Single-inheritance fragment of the CPython hierarchy: GeneratorExit derives
from BaseException directly and is not an Exception subclass. -/
inductive PyExc
  | BaseExceptionC
  | ExceptionC
  | GeneratorExitC
  | IOErrorC
  | ValueErrorC
  deriving DecidableEq

/-- The class together with its ancestors, per the CPython hierarchy. -/
def PyExc.ancestors : PyExc → List PyExc
  | .BaseExceptionC => [.BaseExceptionC]
  | .ExceptionC => [.ExceptionC, .BaseExceptionC]
  | .GeneratorExitC => [.GeneratorExitC, .BaseExceptionC]
  | .IOErrorC => [.IOErrorC, .ExceptionC, .BaseExceptionC]
  | .ValueErrorC => [.ValueErrorC, .ExceptionC, .BaseExceptionC]

/-- Python issubclass on the embedded class fragment. -/
def issubclass (c d : PyExc) : Bool := decide (d ∈ c.ancestors)

/-- base_circuit_breaker.State. -/
inductive State
  | CLOSED
  | HALF_OPEN
  | OPEN
  deriving DecidableEq

/-- The in-memory circuit breaker's mutable fields and configuration
(BaseCircuitBreaker.__init__ / InMemoryCircuitBreaker): _state is the stored
state, opened is the _opened millisecond timestamp, has_fallback models
whether _fallback_function is configured. -/
structure Breaker where
  name : String
  state : State
  failure_count : Nat
  failure_threshold : Nat
  recovery_timeout_in_milli : Int
  opened : Int
  last_failure : Option String
  expected_exception : List PyExc
  has_fallback : Bool
  deriving DecidableEq

/-- BaseCircuitBreaker._threshold_occurred. -/
def threshold_occurred (b : Breaker) : Bool :=
  decide (b.failure_threshold ≤ b.failure_count)

/-- BaseCircuitBreaker.is_expected_failure: any issubclass match against the
configured expected-exception list. -/
def is_expected_failure (b : Breaker) (c : PyExc) : Bool :=
  b.expected_exception.any (fun e => issubclass c e)

/-- InMemoryCircuitBreaker._call_succeeded. -/
def call_succeeded (b : Breaker) : Breaker :=
  { b with state := State.CLOSED, last_failure := none, failure_count := 0 }

/-- InMemoryCircuitBreaker._call_failed, with the current millisecond time
passed explicitly for the opened-timestamp update. -/
def call_failed (b : Breaker) (now : Int) : Breaker :=
  let b1 := { b with failure_count := b.failure_count + 1 }
  if threshold_occurred b1 then { b1 with state := State.OPEN, opened := now }
  else b1

/-- InMemoryCircuitBreaker.open_remaining (milliseconds). -/
def open_remaining (b : Breaker) (now : Int) : Int :=
  b.opened + b.recovery_timeout_in_milli - now

/-- InMemoryCircuitBreaker.state property: HALF_OPEN is derived at read time
from the stored OPEN state once the remaining open time is nonpositive. -/
def state_property (b : Breaker) (now : Int) : State :=
  if b.state = State.OPEN ∧ open_remaining b now ≤ 0 then State.HALF_OPEN
  else b.state

/-- InMemoryCircuitBreaker.opened property: whether the derived state is OPEN. -/
def opened_property (b : Breaker) (now : Int) : Bool :=
  decide (state_property b now = State.OPEN)

/-- BaseCircuitBreaker.__exit__: a matched (expected) exception records the
last failure and one _call_failed; anything else, including the no-exception
case and unmatched exception classes, records one _call_succeeded. The Bool
component is whether an exception propagates to the caller; __exit__ returns
False, so any exception present propagates. -/
def exit_step (b : Breaker) (exc : Option (PyExc × String)) (now : Int) :
    Breaker × Bool :=
  match exc with
  | some (c, m) =>
      if is_expected_failure b c then
        (call_failed { b with last_failure := some m } now, true)
      else (call_succeeded b, true)
  | none => (call_succeeded b, false)

/-- Outcome of the wrapped guarded operation, as observed by the with-block. -/
inductive CallRes
  | success
  | raises (c : PyExc) (msg : String)
  deriving DecidableEq

def exc_of_res : CallRes → Option (PyExc × String)
  | .success => none
  | .raises c m => some (c, m)

/-- What the decorate wrapper returns or raises for one guarded call. -/
inductive WrapperOutcome
  | fallback_result
  | circuit_open_raised (name : String) (remaining : Int) (failures : Nat)
      (last : Option String)
  | op_ran (propagates : Bool)
  deriving DecidableEq

def op_invoked : WrapperOutcome → Bool
  | .op_ran _ => true
  | _ => false

/-- The wrapper produced by BaseCircuitBreaker.decorate, for one call: if the
derived state is OPEN, the wrapped operation is not invoked and either the
fallback runs or a CircuitBreakerException is raised carrying the breaker
(whose name, remaining open time, failure count and last failure the
exception exposes); otherwise the operation runs inside the with-block and
its outcome is accounted by exit_step at time exit_now. -/
def wrapper_call (b : Breaker) (now : Int) (res : CallRes) (exit_now : Int) :
    WrapperOutcome × Breaker :=
  if opened_property b now then
    if b.has_fallback then (WrapperOutcome.fallback_result, b)
    else
      (WrapperOutcome.circuit_open_raised b.name (open_remaining b now)
        b.failure_count b.last_failure, b)
  else
    let e := exit_step b (exc_of_res res) exit_now
    (WrapperOutcome.op_ran e.2, e.1)

/-- How a lazily consumed guarded generator run finishes. -/
inductive GenOutcome
  | exhausted
  | error_during (c : PyExc) (msg : String)
  | abandoned
  deriving DecidableEq

/-- The exception that BaseCircuitBreaker.call_generator's with-block observes
when consumption finishes: exhaustion exits cleanly; an error during
consumption propagates through the with-block; abandoning the generator
closes it, which per CPython generator semantics raises GeneratorExit at the
suspended yield inside the with-block. -/
def generator_exit_exc : GenOutcome → Option (PyExc × String)
  | .exhausted => none
  | .error_during c m => some (c, m)
  | .abandoned => some (PyExc.GeneratorExitC, "")

/-- The single accounting step run by call_generator's with-block when the
consumption of the produced sequence finishes with the given outcome. -/
def call_generator_finish (b : Breaker) (o : GenOutcome) (now : Int) : Breaker :=
  (exit_step b (generator_exit_exc o) now).1

/-- CircuitBreakerDynamoDBSchema: the persisted circuit-breaker record. -/
structure CircuitBreakerDynamoDBSchema where
  name : String
  cb_state : State
  opened : Int
  failure_count : Nat
  last_failure : String
  failure_threshold : Nat
  recovery_timeout : Int
  deriving DecidableEq

/-- DynamoDBCircuitBreaker._check_remaining. -/
def check_remaining (r : CircuitBreakerDynamoDBSchema) (now : Int) : Int :=
  r.opened + r.recovery_timeout - now

/-- DynamoDBCircuitBreaker.state property (the remote-locked variant's state
getter has the same read-write logic): reads the record, and when the stored
state is OPEN with no remaining open time, sets cb_state to HALF_OPEN and
writes the item back through _update_circuit_breaker_item_in_table, whose
update expression also rewrites last_failure from the breaker's in-memory
_last_failure. Returns the derived state, the record as persisted after the
read, and whether a write occurred. -/
def ddb_state_property (r : CircuitBreakerDynamoDBSchema)
    (self_last_failure : String) (now : Int) :
    State × CircuitBreakerDynamoDBSchema × Bool :=
  if r.cb_state = State.OPEN ∧ check_remaining r now ≤ 0 then
    (State.HALF_OPEN,
      { r with cb_state := State.HALF_OPEN, last_failure := self_last_failure },
      true)
  else (r.cb_state, r, false)

/-- Iterated matched failures: one _call_failed per listed failure time. -/
def fail_times (b : Breaker) : List Int → Breaker
  | [] => b
  | t :: ts => fail_times (call_failed b t) ts

end CircuitBreaker

namespace DDBLock

/-- DynamoDBLock status constants. -/
inductive LockStatus
  | PENDING
  | LOCKED
  | RELEASED
  | IN_DANGER
  | INVALID
  deriving DecidableEq

/-- The in-process DynamoDBLock object: the fields the client operations read
and mutate. unique_identifier is the quoted partition-and-sort-key pair. -/
structure DLock where
  unique_identifier : String
  record_version_number : String
  expiry_time : Int
  last_updated_time : Int
  status : LockStatus
  deriving DecidableEq

/-- The persisted columns of one lock row the protocol conditions on. -/
structure StoreRec where
  record_version_number : String
  expiry_time : Int
  deriving DecidableEq

/-- Lookup in an association list keyed by strings (models dict access). -/
def alookup {α : Type} (k : String) : List (String × α) → Option α
  | [] => none
  | (k2, v) :: rest => if k2 = k then some v else alookup k rest

/-- Remove a key from an association list (models dict pop). -/
def aerase {α : Type} (k : String) : List (String × α) → List (String × α)
  | [] => []
  | (k2, v) :: rest => if k2 = k then aerase k rest else (k2, v) :: aerase k rest

/-- Insert or overwrite a key in an association list (models dict set / a
DynamoDB put or update of that row). -/
def aset {α : Type} (k : String) (v : α) : List (String × α) → List (String × α)
  | [] => [(k, v)]
  | (k2, w) :: rest => if k2 = k then (k, v) :: rest else (k2, w) :: aset k v rest

/-- DynamoDBLockClient state: the active-lease dict _locks, the lock table
rows, the _shutting_down flag, whether each background loop is still running,
and the app-callback submissions (code, lock uid) in submission order. -/
structure Client where
  locks : List (String × DLock)
  store : List (String × StoreRec)
  shutting_down : Bool
  sender_alive : Bool
  checker_alive : Bool
  events : List (String × String)
  deriving DecidableEq

/-- DynamoDBLockClient._delete_lock_from_dynamodb: conditional delete keyed on
the lock's record_version_number (and on row existence). With best_effort any
ClientError is logged and swallowed; otherwise a conditional-check failure
raises LOCK_STOLEN. Returns the store after the call and the raised error
code, if any. -/
def delete_lock_from_dynamodb (store : List (String × StoreRec)) (l : DLock)
    (best_effort : Bool) : List (String × StoreRec) × Option String :=
  match alookup l.unique_identifier store with
  | some r =>
      if r.record_version_number = l.record_version_number then
        (aerase l.unique_identifier store, none)
      else if best_effort then (store, none)
      else (store, some "LOCK_STOLEN")
  | none =>
      if best_effort then (store, none)
      else (store, some "LOCK_STOLEN")

/-- DynamoDBLockClient.release_lock: under the lock's thread lock, a lease
whose status is neither LOCKED nor IN_DANGER is left untouched; otherwise, if
its uid is still in _locks, it is marked RELEASED, popped from _locks and the
conditional delete is issued. Returns the client, the lock object, and the
raised error code if any. -/
def release_lock (c : Client) (l : DLock) (best_effort : Bool) :
    Client × DLock × Option String :=
  if l.status = LockStatus.LOCKED ∨ l.status = LockStatus.IN_DANGER then
    if (alookup l.unique_identifier c.locks).isSome then
      let l2 := { l with status := LockStatus.RELEASED }
      let d := delete_lock_from_dynamodb c.store l2 best_effort
      ({ c with locks := aerase l.unique_identifier c.locks, store := d.1 },
        l2, d.2)
    else (c, l, none)
  else (c, l, none)

/-- DynamoDBLockClient._update_lock_in_dynamodb: conditional update swapping
in the new record version number and expiry, conditioned on row existence and
on the row's version matching the lock's. On a conditional-check failure the
lock status is set to INVALID, the uid is popped from _locks and a
LOCK_STOLEN callback is submitted, and the method returns normally; on any
other store fault a DynamoDBLockError UNKNOWN is raised. (The pop is only
reached from _send_heartbeat, whose guard ensures the uid is present.) -/
def update_lock_in_dynamodb (c : Client) (l : DLock) (new_rvn : String)
    (new_expiry : Int) (store_fault : Bool) : Client × DLock × Option String :=
  if store_fault then (c, l, some "UNKNOWN")
  else
    match alookup l.unique_identifier c.store with
    | some r =>
        if r.record_version_number = l.record_version_number then
          ({ c with
              store := aset l.unique_identifier ⟨new_rvn, new_expiry⟩ c.store },
            l, none)
        else
          ({ c with
              locks := aerase l.unique_identifier c.locks
              events := c.events ++ [("LOCK_STOLEN", l.unique_identifier)] },
            { l with status := LockStatus.INVALID }, none)
    | none =>
        ({ c with
            locks := aerase l.unique_identifier c.locks
            events := c.events ++ [("LOCK_STOLEN", l.unique_identifier)] },
          { l with status := LockStatus.INVALID }, none)

/-- DynamoDBLockClient._update_lock_freshness: runs the conditional update,
then runs its post-update assignments (new token, new expiry, refreshed
last_updated_time, status LOCKED) whenever the update returned without
raising - the source does not guard these lines on the conditional update
having succeeded, only an exception skips them. -/
def update_lock_freshness (c : Client) (l : DLock) (new_rvn : String)
    (new_expiry : Int) (now : Int) (store_fault : Bool) :
    Client × DLock × Option String :=
  let u := update_lock_in_dynamodb c l new_rvn new_expiry store_fault
  match u.2.2 with
  | some e => (u.1, u.2.1, some e)
  | none =>
      (u.1,
        { u.2.1 with
            record_version_number := new_rvn
            expiry_time := new_expiry
            last_updated_time := now
            status := LockStatus.LOCKED },
        none)

/-- DynamoDBLockClient._send_heartbeat: under the lock's thread lock, skip if
the uid is no longer in _locks or the status is not LOCKED; otherwise renew
the lease via _update_lock_freshness. The fresh uuid token and the refreshed
expiry are passed in as new_rvn and new_expiry. -/
def send_heartbeat (c : Client) (l : DLock) (new_rvn : String)
    (new_expiry : Int) (now : Int) (store_fault : Bool) :
    Client × DLock × Option String :=
  if (alookup l.unique_identifier c.locks).isNone then (c, l, none)
  else if l.status ≠ LockStatus.LOCKED then (c, l, none)
  else update_lock_freshness c l new_rvn new_expiry now store_fault

/-- The row fields acquire_lock reads from an existing lock record. -/
structure ExistingLock where
  record_version_number : String
  lease_duration : Int
  deriving DecidableEq

/-- What one iteration of acquire_lock's polling loop decides to do. -/
inductive AcquireDecision
  | register_new
  | takeover (stale_rvn : String)
  | record_and_poll (rvn : String) (fetch_time : Int)
  | keep_polling
  deriving DecidableEq

/-- The decision taken by one iteration of acquire_lock's polling loop after
reading the current record: no record leads to the conditional insert; a
record whose version equals the loop-carried last observed version and whose
observation age strictly exceeds the held lease's declared duration leads to
the takeover attempt (conditional overwrite keyed on that stale version); a
changed or first-seen version is recorded together with the observation time;
an unchanged version that is not yet past the lease duration leaves the
loop-carried state untouched and keeps polling. -/
def acquire_poll_decision (last_rvn : Option String) (last_fetch_time : Int)
    (existing : Option ExistingLock) (now : Int) : AcquireDecision :=
  match existing with
  | none => AcquireDecision.register_new
  | some ex =>
      if some ex.record_version_number = last_rvn then
        if now - last_fetch_time > ex.lease_duration then
          AcquireDecision.takeover ex.record_version_number
        else AcquireDecision.keep_polling
      else AcquireDecision.record_and_poll ex.record_version_number now

/-- DynamoDBLockClient._register_new_lock_local_memory: mark the lock LOCKED
and add it to _locks. Called after both the fresh insert and the takeover
overwrite succeed. -/
def register_new_lock_local_memory (c : Client) (l : DLock) : Client × DLock :=
  let l2 := { l with status := LockStatus.LOCKED }
  ({ c with locks := aset l2.unique_identifier l2 c.locks }, l2)

/-- DynamoDBLockClient._release_all_locks: iterate a snapshot of _locks,
release each lease best-effort and submit a LOCK_STOLEN callback for it. -/
def release_all_aux : List (String × DLock) → Client → Client
  | [], c => c
  | kv :: rest, c =>
      let r := release_lock c kv.2 true
      release_all_aux rest
        { r.1 with
            events := r.1.events ++ [("LOCK_STOLEN", kv.2.unique_identifier)] }

def release_all_locks (c : Client) : Client := release_all_aux c.locks c

/-- DynamoDBLockClient.close: if already shutting down, return; else set the
_shutting_down flag, join the two background threads (their loops run while
the flag is unset, so both exit permanently and the joins return), optionally
release all locks, and finally reset the flag to False. -/
def close (c : Client) (release_locks : Bool) : Client :=
  if c.shutting_down then c
  else
    let c1 := { c with shutting_down := true }
    let c2 := { c1 with sender_alive := false, checker_alive := false }
    let c3 := if release_locks then release_all_locks c2 else c2
    { c3 with shutting_down := false }

/-- The guard at the top of every acquire_lock polling iteration: a true
result raises DynamoDBLockError CLIENT_SHUTDOWN. -/
def acquire_shutdown_check (c : Client) : Bool := c.shutting_down

end DDBLock

namespace CircuitBreaker

lemma call_failed_below (b : Breaker) (t : Int)
    (h : b.failure_count + 1 < b.failure_threshold) :
    call_failed b t = { b with failure_count := b.failure_count + 1 } := by
  unfold call_failed threshold_occurred
  simp only [decide_eq_true_eq]
  rw [if_neg (by simp; omega)]

lemma call_failed_at (b : Breaker) (t : Int)
    (h : b.failure_threshold ≤ b.failure_count + 1) :
    call_failed b t =
      { b with failure_count := b.failure_count + 1
               state := State.OPEN
               opened := t } := by
  unfold call_failed threshold_occurred
  simp only [decide_eq_true_eq]
  rw [if_pos (by simpa using h)]

lemma fail_times_append (b : Breaker) (ts : List Int) (t : Int) :
    fail_times b (ts ++ [t]) = call_failed (fail_times b ts) t := by
  induction ts generalizing b with
  | nil => rfl
  | cons s ss ih => simpa [fail_times] using ih (call_failed b s)

lemma fail_times_closed (ts : List Int) : ∀ b : Breaker,
    b.state = State.CLOSED →
    b.failure_count + ts.length < b.failure_threshold →
    (fail_times b ts).state = State.CLOSED ∧
    (fail_times b ts).failure_count = b.failure_count + ts.length ∧
    (fail_times b ts).failure_threshold = b.failure_threshold := by
  induction ts with
  | nil => intro b h1 _; exact ⟨h1, by simp [fail_times], rfl⟩
  | cons t ts ih =>
      intro b h1 h2
      simp only [List.length_cons] at h2
      have hcf := call_failed_below b t (by omega)
      have := ih { b with failure_count := b.failure_count + 1 }
        (by simpa using h1) (by simp; omega)
      simp only [fail_times, hcf]
      refine ⟨this.1, ?_, this.2.2⟩
      rw [this.2.1]
      simp
      omega

/-- C1: for a breaker with failure threshold T at least 1, starting CLOSED
with failure count 0, T - 1 consecutive matched failures recorded via
_call_failed leave the state CLOSED, while the T-th moves it to OPEN and sets
the opened timestamp to that failure's time. -/
theorem C1_exactly_threshold_failures_open (b : Breaker) (ts : List Int)
    (t : Int) (hstate : b.state = State.CLOSED) (hfc : b.failure_count = 0)
    (hlen : ts.length + 1 = b.failure_threshold) :
    (fail_times b ts).state = State.CLOSED ∧
    (fail_times b ts).failure_count = ts.length ∧
    (fail_times b (ts ++ [t])).state = State.OPEN ∧
    (fail_times b (ts ++ [t])).opened = t ∧
    (fail_times b (ts ++ [t])).failure_count = b.failure_threshold := by
  obtain ⟨hs, hc, ht⟩ := fail_times_closed ts b hstate (by omega)
  have hat := call_failed_at (fail_times b ts) t (by omega)
  rw [fail_times_append, hat]
  exact ⟨hs, by omega, rfl, rfl, by simp; omega⟩

/-- Concrete instantiation of C1 at threshold 2. -/
theorem C1_witness :
    ∃ b : Breaker, b.state = State.CLOSED ∧ b.failure_count = 0 ∧
      [(5 : Int)].length + 1 = b.failure_threshold ∧
      (fail_times b [5]).state = State.CLOSED ∧
      (fail_times b [(5 : Int), 9]).state = State.OPEN ∧
      (fail_times b [(5 : Int), 9]).opened = 9 := by
  refine ⟨⟨"cb", State.CLOSED, 0, 2, 1000, 0, none, [PyExc.ExceptionC], false⟩,
    rfl, rfl, rfl, ?_, ?_, ?_⟩
  · have := C1_exactly_threshold_failures_open
      ⟨"cb", State.CLOSED, 0, 2, 1000, 0, none, [PyExc.ExceptionC], false⟩
      [5] 9 rfl rfl rfl
    exact this.1
  · have := C1_exactly_threshold_failures_open
      ⟨"cb", State.CLOSED, 0, 2, 1000, 0, none, [PyExc.ExceptionC], false⟩
      [5] 9 rfl rfl rfl
    exact this.2.2.1
  · have := C1_exactly_threshold_failures_open
      ⟨"cb", State.CLOSED, 0, 2, 1000, 0, none, [PyExc.ExceptionC], false⟩
      [5] 9 rfl rfl rfl
    exact this.2.2.2.1

end CircuitBreaker

namespace CircuitBreaker

/-- C2 counterexample: a remote-mode breaker record that is OPEN with its
recovery timeout elapsed. Reading the state derives HALF_OPEN but also writes
the record back with cb_state set to HALF_OPEN, so HALF_OPEN is persisted in
the remote backing-store mode, contrary to the claim. -/
theorem C2_counterexample :
    (ddb_state_property ⟨"cb", State.OPEN, 0, 3, "x", 5, 100⟩ "None" 150).2.2
      = true ∧
    (ddb_state_property ⟨"cb", State.OPEN, 0, 3, "x", 5, 100⟩ "None" 150).2.1.cb_state
      = State.HALF_OPEN := by
  decide

/-- C2 amended: HALF_OPEN is derived at read time from OPEN plus elapsed
recovery timeout in every mode, and the local in-memory breaker's state read
is a pure derivation that writes nothing; but in the remote modes (locked and
unlocked) the state read persists the derived HALF_OPEN value back to the
record, so HALF_OPEN does reach the store there. -/
theorem C2_half_open_derivation (b : Breaker) (now : Int)
    (r : CircuitBreakerDynamoDBSchema) (lf : String) (now2 : Int) :
    (b.state = State.OPEN → open_remaining b now ≤ 0 →
      state_property b now = State.HALF_OPEN) ∧
    (b.state = State.OPEN → 0 < open_remaining b now →
      state_property b now = State.OPEN) ∧
    (r.cb_state = State.OPEN → check_remaining r now2 ≤ 0 →
      ddb_state_property r lf now2 =
        (State.HALF_OPEN,
          { r with cb_state := State.HALF_OPEN, last_failure := lf }, true)) ∧
    (¬(r.cb_state = State.OPEN ∧ check_remaining r now2 ≤ 0) →
      ddb_state_property r lf now2 = (r.cb_state, r, false)) := by
  refine ⟨?_, ?_, ?_, ?_⟩
  · intro h1 h2; simp [state_property, h1, h2]
  · intro h1 h2; simp [state_property, h1]; omega
  · intro h1 h2; simp [ddb_state_property, h1, h2]
  · intro h
    simp only [ddb_state_property]
    rw [if_neg h]

/-- Concrete instantiation of C2's amended statement. -/
theorem C2_witness :
    state_property ⟨"cb", State.OPEN, 3, 5, 100, 0, none, [], false⟩ 150
      = State.HALF_OPEN ∧
    (ddb_state_property ⟨"cb", State.OPEN, 0, 3, "x", 5, 100⟩ "n" 10).2.2
      = false := by
  constructor
  · exact (C2_half_open_derivation
      ⟨"cb", State.OPEN, 3, 5, 100, 0, none, [], false⟩ 150
      ⟨"cb", State.OPEN, 0, 3, "x", 5, 100⟩ "n" 10).1 rfl (by decide)
  · have := (C2_half_open_derivation
      ⟨"cb", State.OPEN, 3, 5, 100, 0, none, [], false⟩ 150
      ⟨"cb", State.OPEN, 0, 3, "x", 5, 100⟩ "n" 10).2.2.2 (by decide)
    rw [this]

/-- C3: a breaker whose stored state is OPEN with the recovery timeout
elapsed (so the derived state is HALF_OPEN) lets the probe call through; on
success the state becomes CLOSED with failure count 0 and last failure
cleared, and on a matched failure the state returns to OPEN with the failure
count incremented by one and the opened timestamp refreshed to the failure
time. -/
theorem C3_half_open_probe_outcomes (b : Breaker) (now exit_now : Int)
    (c : PyExc) (m : String) (hstate : b.state = State.OPEN)
    (helapsed : open_remaining b now ≤ 0)
    (hfc : b.failure_threshold ≤ b.failure_count)
    (hmatched : is_expected_failure b c = true) :
    state_property b now = State.HALF_OPEN ∧
    op_invoked (wrapper_call b now CallRes.success exit_now).1 = true ∧
    (wrapper_call b now CallRes.success exit_now).2 = call_succeeded b ∧
    (call_succeeded b).state = State.CLOSED ∧
    (call_succeeded b).failure_count = 0 ∧
    (call_succeeded b).last_failure = none ∧
    (wrapper_call b now (CallRes.raises c m) exit_now).2.state = State.OPEN ∧
    (wrapper_call b now (CallRes.raises c m) exit_now).2.failure_count
      = b.failure_count + 1 ∧
    (wrapper_call b now (CallRes.raises c m) exit_now).2.opened = exit_now := by
  have hsp : state_property b now = State.HALF_OPEN := by
    simp [state_property, hstate, helapsed]
  have hop : opened_property b now = false := by
    simp [opened_property, hsp]
  have hfail := call_failed_at { b with last_failure := some m } exit_now
    (by simpa using Nat.le_succ_of_le hfc)
  refine ⟨hsp, ?_, ?_, rfl, rfl, rfl, ?_, ?_, ?_⟩ <;>
    simp [wrapper_call, hop, exit_step, exc_of_res, hmatched, op_invoked,
      hfail]

/-- Concrete instantiation of C3. -/
theorem C3_witness :
    (wrapper_call ⟨"cb", State.OPEN, 2, 2, 100, 0, none, [PyExc.ExceptionC],
        false⟩ 150 CallRes.success 150).2.state = State.CLOSED ∧
    (wrapper_call ⟨"cb", State.OPEN, 2, 2, 100, 0, none, [PyExc.ExceptionC],
        false⟩ 150 (CallRes.raises PyExc.IOErrorC "e") 150).2.opened = 150 := by
  have h := C3_half_open_probe_outcomes
    ⟨"cb", State.OPEN, 2, 2, 100, 0, none, [PyExc.ExceptionC], false⟩
    150 150 PyExc.IOErrorC "e" rfl (by decide) (by decide) (by decide)
  exact ⟨by rw [h.2.2.1]; rfl, h.2.2.2.2.2.2.2.2⟩

/-- C4: while the stored state is OPEN and the recovery timeout has not
elapsed, a guarded call never invokes the wrapped operation and leaves the
breaker (in particular its failure count) unchanged, returning the fallback
result when a fallback is configured and otherwise raising the circuit-open
exception carrying the breaker's name, remaining open time, failure count
and last failure; once the remaining open time is nonpositive the call is
passed through to the wrapped operation. -/
theorem C4_open_short_circuit (b : Breaker) (now exit_now now3 : Int)
    (res : CallRes) (hstate : b.state = State.OPEN)
    (hremain : 0 < open_remaining b now) :
    op_invoked (wrapper_call b now res exit_now).1 = false ∧
    (wrapper_call b now res exit_now).2 = b ∧
    (b.has_fallback = true →
      (wrapper_call b now res exit_now).1 = WrapperOutcome.fallback_result) ∧
    (b.has_fallback = false →
      (wrapper_call b now res exit_now).1 =
        WrapperOutcome.circuit_open_raised b.name (open_remaining b now)
          b.failure_count b.last_failure) ∧
    (open_remaining b now3 ≤ 0 →
      op_invoked (wrapper_call b now3 res exit_now).1 = true) := by
  have hsp : state_property b now = State.OPEN := by
    simp [state_property, hstate]; omega
  have hop : opened_property b now = true := by
    simp [opened_property, hsp]
  refine ⟨?_, ?_, ?_, ?_, ?_⟩
  · cases hf : b.has_fallback <;> simp [wrapper_call, hop, hf, op_invoked]
  · cases hf : b.has_fallback <;> simp [wrapper_call, hop, hf]
  · intro hf; simp [wrapper_call, hop, hf]
  · intro hf; simp [wrapper_call, hop, hf]
  · intro h3
    have hsp3 : state_property b now3 = State.HALF_OPEN := by
      simp [state_property, hstate, h3]
    have hop3 : opened_property b now3 = false := by
      simp [opened_property, hsp3]
    simp [wrapper_call, hop3, op_invoked]

/-- Concrete instantiation of C4. -/
theorem C4_witness :
    (wrapper_call ⟨"cb", State.OPEN, 3, 3, 100, 0, some "f", [], false⟩ 50
        CallRes.success 50).1 =
      WrapperOutcome.circuit_open_raised "cb" 50 3 (some "f") ∧
    (wrapper_call ⟨"cb", State.OPEN, 3, 3, 100, 0, some "f", [], false⟩ 50
        CallRes.success 50).2 =
      ⟨"cb", State.OPEN, 3, 3, 100, 0, some "f", [], false⟩ := by
  have h := C4_open_short_circuit
    ⟨"cb", State.OPEN, 3, 3, 100, 0, some "f", [], false⟩ 50 50 200
    CallRes.success rfl (by decide)
  exact ⟨h.2.2.2.1 rfl, h.2.1⟩

end CircuitBreaker

namespace CircuitBreaker

/-- C5 counterexample: a breaker with failure count 2 and expected-exception
list containing only IOError. A guarded call raising ValueError (not in the
set) propagates, but the breaker state is not unaffected: __exit__ takes the
else branch and runs _call_succeeded, resetting the failure count to 0. -/
theorem C5_counterexample :
    (exit_step ⟨"cb5", State.CLOSED, 2, 5, 1000, 0, none, [PyExc.IOErrorC],
        false⟩ (some (PyExc.ValueErrorC, "boom")) 0).2 = true ∧
    (exit_step ⟨"cb5", State.CLOSED, 2, 5, 1000, 0, none, [PyExc.IOErrorC],
        false⟩ (some (PyExc.ValueErrorC, "boom")) 0).1.failure_count = 0 ∧
    (⟨"cb5", State.CLOSED, 2, 5, 1000, 0, none, [PyExc.IOErrorC], false⟩ :
        Breaker).failure_count = 2 ∧
    (exit_step ⟨"cb5", State.CLOSED, 2, 5, 1000, 0, none, [PyExc.IOErrorC],
          false⟩ (some (PyExc.ValueErrorC, "boom")) 0).1 ≠
      ⟨"cb5", State.CLOSED, 2, 5, 1000, 0, none, [PyExc.IOErrorC], false⟩ := by
  decide

/-- C5 amended: a guarded call raising an exception whose type is not in the
configured expected-exception set propagates to the caller and is treated
exactly as a success for accounting: the state becomes CLOSED, the failure
count is reset to 0 and the last failure is cleared - which differs from
leaving the breaker state unaffected whenever the failure count was
nonzero. -/
theorem C5_unmatched_exception_treated_as_success (b : Breaker) (c : PyExc)
    (m : String) (now : Int) (hunmatched : is_expected_failure b c = false) :
    exit_step b (some (c, m)) now = (call_succeeded b, true) ∧
    (call_succeeded b).state = State.CLOSED ∧
    (call_succeeded b).failure_count = 0 ∧
    (call_succeeded b).last_failure = none := by
  simp [exit_step, hunmatched, call_succeeded]

/-- Concrete instantiation of C5's amended statement. -/
theorem C5_witness :
    (exit_step ⟨"cb5", State.CLOSED, 2, 5, 1000, 0, none, [PyExc.IOErrorC],
          false⟩ (some (PyExc.ValueErrorC, "m")) 7).1.state = State.CLOSED := by
  have h := C5_unmatched_exception_treated_as_success
    ⟨"cb5", State.CLOSED, 2, 5, 1000, 0, none, [PyExc.IOErrorC], false⟩
    PyExc.ValueErrorC "m" 7 (by decide)
  rw [h.1]
  exact h.2.1

/-- C6 counterexample: a breaker with failure count 1 guarding a generator
function. Abandoning the partially consumed generator closes it, delivering
GeneratorExit to the with-block; GeneratorExit is not an Exception subclass,
so with the default expected-exception list the breaker records a success,
resetting the failure count to 0 - it does not leave the accounting
untouched as the claim states. -/
theorem C6_counterexample :
    (call_generator_finish ⟨"cb6", State.CLOSED, 1, 3, 1000, 0, none,
        [PyExc.ExceptionC], false⟩ GenOutcome.abandoned 0).failure_count
      = 0 ∧
    (⟨"cb6", State.CLOSED, 1, 3, 1000, 0, none, [PyExc.ExceptionC], false⟩ :
        Breaker).failure_count = 1 ∧
    call_generator_finish ⟨"cb6", State.CLOSED, 1, 3, 1000, 0, none,
        [PyExc.ExceptionC], false⟩ GenOutcome.abandoned 0 ≠
      ⟨"cb6", State.CLOSED, 1, 3, 1000, 0, none, [PyExc.ExceptionC], false⟩ := by
  decide

/-- C6 amended: for generator-style guarded calls, exhausting the sequence
without error records exactly one success; the first matched error raised
during consumption records exactly one failure; but abandoning a partially
consumed generator does not leave the accounting untouched - the close
delivers GeneratorExit, which is unmatched under the default
expected-exception list, so one success is recorded (resetting the failure
count and state). -/
theorem C6_generator_accounting (b : Breaker) (now : Int) (c : PyExc)
    (m : String) :
    call_generator_finish b GenOutcome.exhausted now = call_succeeded b ∧
    (is_expected_failure b c = true →
      call_generator_finish b (GenOutcome.error_during c m) now =
        call_failed { b with last_failure := some m } now) ∧
    (is_expected_failure b PyExc.GeneratorExitC = false →
      call_generator_finish b GenOutcome.abandoned now = call_succeeded b) ∧
    is_expected_failure { b with expected_exception := [PyExc.ExceptionC] }
      PyExc.GeneratorExitC = false := by
  refine ⟨rfl, ?_, ?_, rfl⟩
  · intro hm
    simp [call_generator_finish, generator_exit_exc, exit_step, hm]
  · intro hu
    simp [call_generator_finish, generator_exit_exc, exit_step, hu]

/-- Concrete instantiation of C6's amended statement. -/
theorem C6_witness :
    call_generator_finish ⟨"cb6", State.CLOSED, 1, 3, 1000, 0, none,
        [PyExc.ExceptionC], false⟩ (GenOutcome.error_during PyExc.IOErrorC "e")
        9 =
      call_failed ⟨"cb6", State.CLOSED, 1, 3, 1000, 0, some "e",
        [PyExc.ExceptionC], false⟩ 9 := by
  have h := C6_generator_accounting
    ⟨"cb6", State.CLOSED, 1, 3, 1000, 0, none, [PyExc.ExceptionC], false⟩
    9 PyExc.IOErrorC "e"
  exact h.2.1 (by decide)

end CircuitBreaker

namespace DDBLock

lemma alookup_aset {α : Type} (k : String) (v : α) :
    ∀ xs : List (String × α), alookup k (aset k v xs) = some v := by
  intro xs
  induction xs with
  | nil => simp [aset, alookup]
  | cons kv rest ih =>
      by_cases hk : kv.1 = k
      · simp [aset, hk, alookup]
      · simpa [aset, hk, alookup] using ih

/-- C7 counterexample: the caller last observed token a at time 0 for a lease
with declared duration 10. At time 10 the elapsed time is at least the lease
duration, yet the loop keeps polling (the source requires strictly greater);
and at time 5, where the takeover condition fails, the loop does not record
the token and observation time as the claim states - it keeps polling with
the loop-carried state untouched. -/
theorem C7_counterexample :
    acquire_poll_decision (some "a") 0 (some ⟨"a", 10⟩) 10
      = AcquireDecision.keep_polling ∧
    AcquireDecision.keep_polling ≠ AcquireDecision.takeover "a" ∧
    acquire_poll_decision (some "a") 0 (some ⟨"a", 10⟩) 5
      = AcquireDecision.keep_polling ∧
    AcquireDecision.keep_polling ≠ AcquireDecision.record_and_poll "a" 5 := by
  decide

/-- C7 amended: during the polling loop, a takeover attempt is made precisely
when the record's token equals the token last observed by this caller AND the
elapsed time since that observation strictly exceeds the existing lease's
declared duration; a first-seen or changed token is recorded together with
the observation time; an unchanged token not yet strictly past the lease
duration keeps polling without updating the recorded observation; and a
successful takeover registers the lock locally as LOCKED in the active set. -/
theorem C7_takeover_condition (s_rvn : Option String) (t : Int)
    (ex : ExistingLock) (now : Int) (c : Client) (l : DLock) :
    (acquire_poll_decision s_rvn t (some ex) now
        = AcquireDecision.takeover ex.record_version_number ↔
      some ex.record_version_number = s_rvn ∧ ex.lease_duration < now - t) ∧
    (some ex.record_version_number ≠ s_rvn →
      acquire_poll_decision s_rvn t (some ex) now
        = AcquireDecision.record_and_poll ex.record_version_number now) ∧
    (some ex.record_version_number = s_rvn → now - t ≤ ex.lease_duration →
      acquire_poll_decision s_rvn t (some ex) now
        = AcquireDecision.keep_polling) ∧
    (register_new_lock_local_memory c l).2.status = LockStatus.LOCKED ∧
    alookup l.unique_identifier (register_new_lock_local_memory c l).1.locks
      = some (register_new_lock_local_memory c l).2 := by
  refine ⟨?_, ?_, ?_, rfl, ?_⟩
  · constructor
    · intro h
      by_cases h1 : some ex.record_version_number = s_rvn
      · by_cases h2 : ex.lease_duration < now - t
        · exact ⟨h1, h2⟩
        · simp [acquire_poll_decision, h1, h2] at h
      · simp [acquire_poll_decision, h1] at h
    · rintro ⟨h1, h2⟩
      simp [acquire_poll_decision, h1, h2]
  · intro h1
    simp [acquire_poll_decision, h1]
  · intro h1 h2
    simp [acquire_poll_decision, h1]
    omega
  · exact alookup_aset l.unique_identifier _ c.locks

/-- Concrete instantiation of C7's amended statement. -/
theorem C7_witness :
    acquire_poll_decision (some "a") 0 (some ⟨"a", 10⟩) 11
      = AcquireDecision.takeover "a" ∧
    acquire_poll_decision (some "b") 0 (some ⟨"a", 10⟩) 11
      = AcquireDecision.record_and_poll "a" 11 := by
  have h := C7_takeover_condition (some "a") 0 ⟨"a", 10⟩ 11
    ⟨[], [], false, true, true, []⟩ ⟨"k", "v", 5, 0, LockStatus.PENDING⟩
  have h2 := C7_takeover_condition (some "b") 0 ⟨"a", 10⟩ 11
    ⟨[], [], false, true, true, []⟩ ⟨"k", "v", 5, 0, LockStatus.PENDING⟩
  exact ⟨h.1.mpr ⟨rfl, by decide⟩, h2.2.1 (by decide)⟩

/-- C8: release is idempotent. The second of two consecutive releases of the
same lease is a no-op that raises nothing, and more generally a release of a
lease whose status is neither LOCKED nor IN_DANGER returns without touching
the lease, the active set or the store. -/
theorem C8_release_idempotent (c : Client) (l : DLock) (be : Bool) :
    (release_lock (release_lock c l be).1 (release_lock c l be).2.1 be
      = ((release_lock c l be).1, (release_lock c l be).2.1, none)) ∧
    (¬(l.status = LockStatus.LOCKED ∨ l.status = LockStatus.IN_DANGER) →
      release_lock c l be = (c, l, none)) := by
  by_cases hg : l.status = LockStatus.LOCKED ∨ l.status = LockStatus.IN_DANGER
  · refine ⟨?_, fun h => absurd hg h⟩
    by_cases hm : (alookup l.unique_identifier c.locks).isSome
    · have h1 : release_lock c l be =
        ({ c with locks := aerase l.unique_identifier c.locks
                  store := (delete_lock_from_dynamodb c.store
                    { l with status := LockStatus.RELEASED } be).1 },
          { l with status := LockStatus.RELEASED },
          (delete_lock_from_dynamodb c.store
            { l with status := LockStatus.RELEASED } be).2) := by
        simp [release_lock, hg, hm]
      rw [h1]
      simp [release_lock]
    · have h1 : release_lock c l be = (c, l, none) := by
        simp [release_lock, hg, hm]
      rw [h1]
      simp [release_lock, hg, hm]
  · have h1 : release_lock c l be = (c, l, none) := by
      simp [release_lock, hg]
    exact ⟨by rw [h1]; exact h1, fun _ => h1⟩

/-- Concrete instantiation of C8 on an already-released lease. -/
theorem C8_witness :
    release_lock ⟨[], [], false, true, true, []⟩
        ⟨"k", "v", 0, 0, LockStatus.RELEASED⟩ true
      = (⟨[], [], false, true, true, []⟩,
          ⟨"k", "v", 0, 0, LockStatus.RELEASED⟩, none) := by
  exact (C8_release_idempotent ⟨[], [], false, true, true, []⟩
    ⟨"k", "v", 0, 0, LockStatus.RELEASED⟩ true).2 (by decide)

/-- C9, behavior of the code at the failing input: a heartbeat renewal for a
LOCKED lease in the active set whose store row holds a different version
number (another instance took over). The conditional update fails: the lease
is popped from the active set and the LOCK_STOLEN callback is submitted, with
no exception raised - but the status ends LOCKED, not INVALID, and the new
token is installed, because _update_lock_freshness runs its post-update
assignments even though the conditional update failed, contradicting its own
comment that they run if the update was successful. A second heartbeat after
the theft is a pure skip (removal happens exactly once), and a renewal whose
conditional update succeeds swaps in the new token and expiry. -/
theorem C9_stolen_heartbeat_behavior :
    send_heartbeat
        ⟨[("k", ⟨"k", "vMine", 100, 0, LockStatus.LOCKED⟩)],
          [("k", ⟨"vOther", 100⟩)], false, true, true, []⟩
        ⟨"k", "vMine", 100, 0, LockStatus.LOCKED⟩ "vNew" 200 50 false
      = (⟨[], [("k", ⟨"vOther", 100⟩)], false, true, true,
            [("LOCK_STOLEN", "k")]⟩,
          ⟨"k", "vNew", 200, 50, LockStatus.LOCKED⟩, none) ∧
    send_heartbeat
        ⟨[], [("k", ⟨"vOther", 100⟩)], false, true, true,
          [("LOCK_STOLEN", "k")]⟩
        ⟨"k", "vNew", 200, 50, LockStatus.LOCKED⟩ "vNew2" 300 60 false
      = (⟨[], [("k", ⟨"vOther", 100⟩)], false, true, true,
            [("LOCK_STOLEN", "k")]⟩,
          ⟨"k", "vNew", 200, 50, LockStatus.LOCKED⟩, none) ∧
    send_heartbeat
        ⟨[("k", ⟨"k", "vMine", 100, 0, LockStatus.LOCKED⟩)],
          [("k", ⟨"vMine", 100⟩)], false, true, true, []⟩
        ⟨"k", "vMine", 100, 0, LockStatus.LOCKED⟩ "vNew" 200 50 false
      = (⟨[("k", ⟨"k", "vMine", 100, 0, LockStatus.LOCKED⟩)],
            [("k", ⟨"vNew", 200⟩)], false, true, true, []⟩,
          ⟨"k", "vNew", 200, 50, LockStatus.LOCKED⟩, none) := by
  decide

end DDBLock

namespace DDBLock

lemma release_lock_preserves_loop_flags (c : Client) (l : DLock) (be : Bool) :
    (release_lock c l be).1.shutting_down = c.shutting_down ∧
    (release_lock c l be).1.sender_alive = c.sender_alive ∧
    (release_lock c l be).1.checker_alive = c.checker_alive := by
  by_cases hg : l.status = LockStatus.LOCKED ∨ l.status = LockStatus.IN_DANGER
  · by_cases hm : (alookup l.unique_identifier c.locks).isSome
    · simp [release_lock, hg, hm]
    · simp [release_lock, hg, hm]
  · simp [release_lock, hg]

lemma release_all_aux_preserves_loop_flags :
    ∀ (ls : List (String × DLock)) (c : Client),
    (release_all_aux ls c).shutting_down = c.shutting_down ∧
    (release_all_aux ls c).sender_alive = c.sender_alive ∧
    (release_all_aux ls c).checker_alive = c.checker_alive := by
  intro ls
  induction ls with
  | nil => exact fun c => ⟨rfl, rfl, rfl⟩
  | cons kv rest ih =>
      intro c
      obtain ⟨b1, b2, b3⟩ := release_lock_preserves_loop_flags c kv.2 true
      obtain ⟨a1, a2, a3⟩ := ih
        { (release_lock c kv.2 true).1 with
            events := (release_lock c kv.2 true).1.events ++
              [("LOCK_STOLEN", kv.2.unique_identifier)] }
      exact ⟨by rw [release_all_aux]; exact a1.trans b1,
        by rw [release_all_aux]; exact a2.trans b2,
        by rw [release_all_aux]; exact a3.trans b3⟩

/-- C10: after close returns, the shutting-down flag is False again, so the
acquire-time shutdown check does not fire for a later acquire call - even
though both background heartbeat loops have permanently exited, so the client
no longer renews or danger-checks anything it hands out afterwards. -/
theorem C10_close_resets_shutdown_flag (c : Client) (rl : Bool)
    (h : c.shutting_down = false) :
    (close c rl).shutting_down = false ∧
    acquire_shutdown_check (close c rl) = false ∧
    (close c rl).sender_alive = false ∧
    (close c rl).checker_alive = false := by
  have hne : ¬(c.shutting_down = true) := by simp [h]
  cases rl with
  | false =>
      refine ⟨?_, ?_, ?_, ?_⟩ <;>
        simp [close, hne, acquire_shutdown_check]
  | true =>
      obtain ⟨a1, a2, a3⟩ := release_all_aux_preserves_loop_flags
        ({ c with shutting_down := true
                  sender_alive := false
                  checker_alive := false } : Client).locks
        { c with shutting_down := true
                 sender_alive := false
                 checker_alive := false }
      refine ⟨?_, ?_, ?_, ?_⟩ <;>
        simp [close, hne, acquire_shutdown_check, release_all_locks, a2, a3]

/-- Concrete instantiation of C10. -/
theorem C10_witness :
    (close ⟨[("k", ⟨"k", "v", 9, 0, LockStatus.LOCKED⟩)],
        [("k", ⟨"v", 9⟩)], false, true, true, []⟩ true).shutting_down
      = false ∧
    acquire_shutdown_check (close ⟨[("k", ⟨"k", "v", 9, 0,
        LockStatus.LOCKED⟩)], [("k", ⟨"v", 9⟩)], false, true, true, []⟩ true)
      = false ∧
    (close ⟨[("k", ⟨"k", "v", 9, 0, LockStatus.LOCKED⟩)],
        [("k", ⟨"v", 9⟩)], false, true, true, []⟩ true).sender_alive
      = false := by
  have h := C10_close_resets_shutdown_flag
    ⟨[("k", ⟨"k", "v", 9, 0, LockStatus.LOCKED⟩)], [("k", ⟨"v", 9⟩)],
      false, true, true, []⟩ true rfl
  exact ⟨h.1, h.2.1, h.2.2.1⟩

end DDBLock
